import Mathlib

/-
Verification of the bidirectional CDC sync system against its design
specification.  The Python sources are shallowly embedded below:

  src/src/connectors/base.py        : ChangeEvent, OperationType, ConnectorFactory
  src/src/connectors/postgresql.py  : _parse_wal_data, _extract_pk, apply_change
  src/src/connectors/mysql.py       : _parse_binlog_event, _extract_pk_from_row, apply_change
  src/src/handlers/event_handler.py : ConflictResolver.resolve, EventHandler.process_event,
                                      OffsetManager.save_offset / load_offsets / get_offset
  src/src/main.py                   : the sync loop in main()

Pure fragments become Lean functions; the database target state is made
explicit (a table is a list of rows with a primary-key constraint); the
offset file and the filesystem operations of save_offset are explicit
values.  datetime values become Nat (only their total order is used), and
WAL/binlog positions become Nat where their order matters.
-/

/- String helpers.  The embedding does not use String.toLower /
String.endsWith because those do not reduce in the kernel; the functions
below are plain char-list implementations of the same operations. -/

/-- Lower-case a single ASCII character, as Python str.lower does on the
identifiers appearing in this code base. -/
def char_lower (c : Char) : Char :=
  if 'A' ≤ c ∧ c ≤ 'Z' then Char.ofNat (c.toNat + 32) else c

/-- Lower-case a string (embeds Python str.lower for ASCII identifiers). -/
def str_lower (s : String) : String := String.mk (s.data.map char_lower)

/-- Check that the second list is a prefix of the first argument order:
list_starts_with pat s decides whether pat is a prefix of s. -/
def list_starts_with : List Char → List Char → Bool
  | [], _ => true
  | _ :: _, [] => false
  | p :: ps, c :: cs => p == c && list_starts_with ps cs

/-- Decide whether pat occurs as a contiguous substring of the list. -/
def list_has_sub (pat : List Char) : List Char → Bool
  | [] => list_starts_with pat []
  | c :: cs => list_starts_with pat (c :: cs) || list_has_sub pat cs

/-- Embeds the Python test `pat in s` on strings. -/
def str_has_sub (s pat : String) : Bool := list_has_sub pat.data s.data

/-- Embeds Python str.endswith. -/
def str_ends_with (s suf : String) : Bool :=
  list_starts_with suf.data.reverse s.data.reverse

/- Data model (src/src/connectors/base.py). -/

/-- A column value.  Rows in the source are open dictionaries of
arbitrary values; the sum below is enough for every claim.  vnull stands
for SQL NULL. -/
inductive Val where
  | vnull
  | vint (n : Int)
  | vstr (s : String)
  | vbool (b : Bool)
deriving DecidableEq, Repr

/-- A row: a Python dict from column name to value, embedded as an
association list (insertion ordered, as Python dicts are). -/
abbrev Row := List (String × Val)

/-- OperationType from src/src/connectors/base.py lines 12-17. -/
inductive OperationType where
  | insert
  | update
  | delete
  | snapshot
deriving DecidableEq, Repr

/-- ChangeEvent from src/src/connectors/base.py lines 20-42.  The
timestamp field is a datetime in the source; only its total order is
used, so it is embedded as Nat. -/
structure ChangeEvent where
  operation : OperationType
  table : Option String
  schema : Option String
  timestamp : Nat
  before : Option Row
  after : Option Row
  primary_key : Row
  lsn : Option String
  gtid : Option String
  source_db : Option String
deriving DecidableEq, Repr

/- ConflictResolver (src/src/handlers/event_handler.py lines 15-53). -/

/-- ConflictResolver.resolve, lines 23-53 of event_handler.py: under
last_write_wins it returns local_event exactly when
local_event.timestamp > remote_event.timestamp and remote_event
otherwise; source_priority returns local_event, target_priority returns
remote_event, any other strategy yields None. -/
def resolve (strategy : String) (local_event remote_event : ChangeEvent) :
    Option ChangeEvent :=
  if strategy = "last_write_wins" then
    if remote_event.timestamp < local_event.timestamp then some local_event
    else some remote_event
  else if strategy = "source_priority" then some local_event
  else if strategy = "target_priority" then some remote_event
  else none

/- Primary-key extraction heuristics. -/

/-- PostgreSQLConnector._extract_pk, postgresql.py lines 222-225: on a
missing or empty dict return the empty dict, otherwise keep exactly the
entries whose key ends with "_id" or equals "id". -/
def extract_pk (data : Option Row) : Row :=
  match data with
  | none => []
  | some d =>
    if d.isEmpty then []
    else d.filter (fun kv => str_ends_with kv.1 "_id" || kv.1 == "id")

/-- MySQLConnector._extract_pk_from_row, mysql.py lines 192-199.  The
catalog lookup get_table_schema is impure; its outcome is passed in as
schemaPks: some pks when the lookup succeeded with primary_keys = pks,
none when it raised (the except branch).  The success branch keeps, in
catalog order, the entries of data at the catalog primary-key columns
that are present; the fallback returns the "id" entry when present and
the empty dict otherwise. -/
def extract_pk_from_row (schemaPks : Option (List String)) (data : Row) : Row :=
  match schemaPks with
  | some pks => pks.filterMap (fun pk => (data.lookup pk).map (fun v => (pk, v)))
  | none =>
    match data.lookup "id" with
    | some v => [("id", v)]
    | none => []

/- Claim C3. -/

/-- Concrete event used by the C3 counterexample: timestamp 100,
source_db "a". -/
def c3_event_a : ChangeEvent :=
  { operation := OperationType.update, table := some "users", schema := none,
    timestamp := 100, before := none,
    after := some [("id", Val.vint 1), ("name", Val.vstr "X")],
    primary_key := [("id", Val.vint 1)], lsn := none, gtid := none,
    source_db := some "a" }

/-- Concrete event used by the C3 counterexample: same timestamp 100,
source_db "b". -/
def c3_event_b : ChangeEvent :=
  { operation := OperationType.update, table := some "users", schema := none,
    timestamp := 100, before := none,
    after := some [("id", Val.vint 1), ("name", Val.vstr "Y")],
    primary_key := [("id", Val.vint 1)], lsn := none, gtid := none,
    source_db := some "b" }

/-- C3 counterexample: the claim says that under last_write_wins equal
timestamps are broken by comparing source_id lexicographically, making
the result independent of argument order.  In the code the tie branch
returns remote_event, so swapping the arguments swaps the winner: with
two distinct events of equal timestamp, resolve returns whichever was
passed second. -/
theorem c3_counterexample :
    resolve "last_write_wins" c3_event_a c3_event_b = some c3_event_b
    ∧ resolve "last_write_wins" c3_event_b c3_event_a = some c3_event_a
    ∧ c3_event_a ≠ c3_event_b := by decide

/-- C3 (amended): under last_write_wins, resolve returns local_event
exactly when its timestamp is strictly later than remote_event's, and
returns remote_event whenever local_event.timestamp ≤
remote_event.timestamp; in particular ties go to the remote_event
argument, with no source_id tie-break. -/
theorem c3_theorem (l r : ChangeEvent) :
    (r.timestamp < l.timestamp → resolve "last_write_wins" l r = some l)
    ∧ (l.timestamp ≤ r.timestamp → resolve "last_write_wins" l r = some r) := by
  unfold resolve
  constructor
  · intro h
    rw [if_pos rfl, if_pos h]
  · intro h
    rw [if_pos rfl, if_neg (Nat.not_lt.mpr h)]

/-- Concrete event used by the C3 witness: timestamp 2. -/
def c3_event_late : ChangeEvent :=
  { operation := OperationType.insert, table := some "t", schema := none,
    timestamp := 2, before := none, after := some [("id", Val.vint 1)],
    primary_key := [("id", Val.vint 1)], lsn := none, gtid := none,
    source_db := some "a" }

/-- Concrete event used by the C3 witness: timestamp 1. -/
def c3_event_early : ChangeEvent :=
  { operation := OperationType.insert, table := some "t", schema := none,
    timestamp := 1, before := none, after := some [("id", Val.vint 1)],
    primary_key := [("id", Val.vint 1)], lsn := none, gtid := none,
    source_db := some "b" }

/-- C3 witness: c3_theorem applied at two concrete events with
timestamps 2 and 1; the strictly later event wins in both argument
orders. -/
theorem c3_witness :
    resolve "last_write_wins" c3_event_late c3_event_early = some c3_event_late
    ∧ resolve "last_write_wins" c3_event_early c3_event_late = some c3_event_late :=
  ⟨(c3_theorem c3_event_late c3_event_early).1 (by decide),
   (c3_theorem c3_event_early c3_event_late).2 (by decide)⟩

/- Claim C8. -/

/-- C8: the PostgreSQL fallback _extract_pk returns exactly the entries
of the row whose key ends with "_id" or equals "id", and the empty
mapping for an absent or empty row; the MySQL fallback (catalog lookup
unavailable, schemaPks = none) returns the "id" entry when present and
the empty mapping otherwise. -/
theorem c8_theorem :
    (∀ (d : Row) (k : String) (v : Val),
      (k, v) ∈ extract_pk (some d) ↔
        ((k, v) ∈ d ∧ (str_ends_with k "_id" = true ∨ k = "id")))
    ∧ extract_pk none = []
    ∧ extract_pk (some []) = []
    ∧ (∀ (d : Row) (v : Val), d.lookup "id" = some v →
        extract_pk_from_row none d = [("id", v)])
    ∧ (∀ d : Row, d.lookup "id" = none → extract_pk_from_row none d = []) := by
  refine ⟨?_, rfl, rfl, ?_, ?_⟩
  · intro d k v
    match d with
    | [] => simp [extract_pk]
    | kv0 :: d0 =>
      simp [extract_pk, List.mem_filter, Bool.or_eq_true, beq_iff_eq]
  · intro d v h
    simp [extract_pk_from_row, h]
  · intro d h
    simp [extract_pk_from_row, h]

/-- C8 witness: c8_theorem applied at concrete rows, showing that a
column ending in "_id" is extracted by the PostgreSQL heuristic and that
the MySQL fallback returns the "id" entry. -/
theorem c8_witness :
    ("user_id", Val.vint 1) ∈ extract_pk (some [("user_id", Val.vint 1), ("name", Val.vstr "Ada")])
    ∧ extract_pk_from_row none [("id", Val.vint 5), ("name", Val.vstr "Ada")] = [("id", Val.vint 5)] :=
  ⟨(c8_theorem.1 _ _ _).mpr ⟨by decide, Or.inl (by decide)⟩,
   c8_theorem.2.2.2.1 _ _ (by decide)⟩

/- ChangeEvent construction by the connectors. -/

/-- Input to PostgreSQLConnector._parse_wal_data (postgresql.py lines
178-220): the decoded JSON payload fields the parser reads.  Each field
is Optional because the parser uses dict.get. -/
structure WalData where
  action : Option String
  table : Option String
  schema : Option String
  columns : Option Row
  identity : Option Row
deriving DecidableEq, Repr

/-- PostgreSQLConnector._parse_wal_data, postgresql.py lines 178-220.
The datetime.now() call is passed in as now; the lsn argument is the
position carried on the replication message. -/
def parse_wal_data (data : WalData) (lsn : String) (now : Nat) : Option ChangeEvent :=
  if data.action = some "I" then
    some { operation := OperationType.insert, table := data.table,
           schema := data.schema, timestamp := now, before := none,
           after := data.columns, primary_key := extract_pk data.columns,
           lsn := some lsn, gtid := none, source_db := some "postgresql" }
  else if data.action = some "U" then
    some { operation := OperationType.update, table := data.table,
           schema := data.schema, timestamp := now, before := data.identity,
           after := data.columns, primary_key := extract_pk data.identity,
           lsn := some lsn, gtid := none, source_db := some "postgresql" }
  else if data.action = some "D" then
    some { operation := OperationType.delete, table := data.table,
           schema := data.schema, timestamp := now, before := data.identity,
           after := none, primary_key := extract_pk data.identity,
           lsn := some lsn, gtid := none, source_db := some "postgresql" }
  else none

/-- MySQLConnector._parse_binlog_event, mysql.py lines 146-190.  The
operation is chosen by substring tests on the binlog event class name;
rv, rav, rbv are the row dicts values, after_values and before_values;
pks is the outcome of the get_table_schema catalog lookup inside
_extract_pk_from_row (none = lookup raised).  The Python pk source is
`before or after`; an empty (falsy) before falls through to after, and
the DELETE branch with empty values would pass None and raise inside
the fallback, embedded here as the empty row. -/
def parse_binlog_event (et tn sn : String) (ts lp : Nat)
    (pks : Option (List String)) (rv rav rbv : Row) : ChangeEvent :=
  if str_has_sub et "Write" then
    { operation := OperationType.insert, table := some tn, schema := some sn,
      timestamp := ts, before := none, after := some rv,
      primary_key := extract_pk_from_row pks rv,
      lsn := none, gtid := some (toString lp), source_db := some "mysql" }
  else if str_has_sub et "Update" then
    { operation := OperationType.update, table := some tn, schema := some sn,
      timestamp := ts, before := some rbv, after := some rav,
      primary_key := extract_pk_from_row pks (if rbv.isEmpty then rav else rbv),
      lsn := none, gtid := some (toString lp), source_db := some "mysql" }
  else if str_has_sub et "Delete" then
    { operation := OperationType.delete, table := some tn, schema := some sn,
      timestamp := ts, before := some rv, after := none,
      primary_key := extract_pk_from_row pks (if rv.isEmpty then [] else rv),
      lsn := none, gtid := some (toString lp), source_db := some "mysql" }
  else
    { operation := OperationType.snapshot, table := some tn, schema := some sn,
      timestamp := ts, before := none, after := some rv,
      primary_key := extract_pk_from_row pks rv,
      lsn := none, gtid := some (toString lp), source_db := some "mysql" }

/- The ChangeEvent operation invariants of spec section 3. -/

/-- Check that every key of pk occurs among the keys of target. -/
def covers_keys (pk target : Row) : Bool :=
  pk.all (fun kv => target.any (fun kv2 => kv2.1 == kv.1))

/-- Check that every entry of pk occurs as an entry of target. -/
def entries_sub (pk target : Row) : Bool :=
  pk.all (fun kv => target.any (fun kv2 => kv2 == kv))

/-- The spec's per-operation ChangeEvent invariant (spec section 3): for
INSERT before is absent and after contains every primary-key entry; for
UPDATE before and after both cover the primary-key columns; for DELETE
after is absent and before contains every primary-key entry. -/
def event_invariant (e : ChangeEvent) : Bool :=
  match e.operation with
  | OperationType.insert =>
    e.before.isNone && entries_sub e.primary_key (e.after.getD [])
  | OperationType.update =>
    covers_keys e.primary_key (e.before.getD [])
      && covers_keys e.primary_key (e.after.getD [])
  | OperationType.delete =>
    e.after.isNone && entries_sub e.primary_key (e.before.getD [])
  | OperationType.snapshot => true

/- Helper lemmas about lookup, extraction and the invariant checks. -/

theorem mem_of_lookup_eq {d : Row} {k : String} {v : Val}
    (h : d.lookup k = some v) : (k, v) ∈ d := by
  induction d with
  | nil => cases h
  | cons kv rest ih =>
    obtain ⟨k0, v0⟩ := kv
    rw [List.lookup] at h
    cases hk : (k == k0) with
    | true =>
      rw [hk] at h
      obtain rfl : v0 = v := Option.some.inj h
      have hk' : k = k0 := eq_of_beq hk
      subst hk'
      exact List.mem_cons_self _ _
    | false =>
      rw [hk] at h
      exact List.mem_cons_of_mem _ (ih h)

theorem mem_of_mem_extract_pk {o : Option Row} {kv : String × Val}
    (h : kv ∈ extract_pk o) : kv ∈ o.getD [] := by
  match o with
  | none => cases h
  | some d =>
    simp only [extract_pk] at h
    by_cases hd : d.isEmpty = true
    · rw [if_pos hd] at h; cases h
    · rw [if_neg hd] at h
      exact (List.mem_filter.mp h).1

theorem mem_of_mem_extract_row {pks : Option (List String)} {d : Row}
    {kv : String × Val} (h : kv ∈ extract_pk_from_row pks d) : kv ∈ d := by
  match pks with
  | some l =>
    unfold extract_pk_from_row at h
    obtain ⟨pk, _, heq⟩ := List.mem_filterMap.mp h
    cases hl : d.lookup pk with
    | none => rw [hl] at heq; cases heq
    | some v =>
      rw [hl] at heq
      obtain rfl : (pk, v) = kv := Option.some.inj heq
      exact mem_of_lookup_eq hl
  | none =>
    unfold extract_pk_from_row at h
    cases hl : d.lookup "id" with
    | none => rw [hl] at h; cases h
    | some v =>
      rw [hl] at h
      obtain rfl : kv = ("id", v) := List.mem_singleton.mp h
      exact mem_of_lookup_eq hl

theorem entries_sub_of_mem {pk t : Row} (h : ∀ kv ∈ pk, kv ∈ t) :
    entries_sub pk t = true := by
  simp only [entries_sub, List.all_eq_true, List.any_eq_true, beq_iff_eq]
  intro kv hkv
  exact ⟨kv, h kv hkv, rfl⟩

theorem covers_keys_of_mem {pk t : Row}
    (h : ∀ kv ∈ pk, ∃ kv2 ∈ t, kv2.1 = kv.1) : covers_keys pk t = true := by
  simp only [covers_keys, List.all_eq_true, List.any_eq_true, beq_iff_eq]
  exact h

theorem key_mem_of_covers {a b : Row} (h : covers_keys a b = true)
    {kv : String × Val} (hkv : kv ∈ a) : ∃ kv2 ∈ b, kv2.1 = kv.1 := by
  simp only [covers_keys, List.all_eq_true, List.any_eq_true, beq_iff_eq] at h
  exact h kv hkv

theorem entries_sub_extract (o : Option Row) :
    entries_sub (extract_pk o) (o.getD []) = true :=
  entries_sub_of_mem (fun _ hkv => mem_of_mem_extract_pk hkv)

theorem entries_sub_extract_row (pks : Option (List String)) (d : Row) :
    entries_sub (extract_pk_from_row pks d) d = true :=
  entries_sub_of_mem (fun _ hkv => mem_of_mem_extract_row hkv)

/-- Main invariant lemma for the PostgreSQL parser: events for I and D
actions always satisfy the invariant; a U action additionally needs the
identity keys to appear among the columns keys. -/
theorem pg_invariant_main (d : WalData) (lsn : String) (now : Nat)
    (hcov : d.action = some "U" →
      covers_keys (d.identity.getD []) (d.columns.getD []) = true) :
    ((parse_wal_data d lsn now).map event_invariant).getD true = true := by
  unfold parse_wal_data
  split_ifs with h1 h2 h3
  · simp only [Option.map_some', Option.getD_some, event_invariant,
      Option.isNone_none, Bool.true_and]
    exact entries_sub_extract d.columns
  · simp only [Option.map_some', Option.getD_some, event_invariant,
      Bool.and_eq_true]
    constructor
    · exact covers_keys_of_mem
        (fun kv hkv => ⟨kv, mem_of_mem_extract_pk hkv, rfl⟩)
    · exact covers_keys_of_mem
        (fun kv hkv => key_mem_of_covers (hcov h2) (mem_of_mem_extract_pk hkv))
  · simp only [Option.map_some', Option.getD_some, event_invariant,
      Option.isNone_none, Bool.true_and]
    exact entries_sub_extract d.identity
  · simp

/-- Main invariant lemma for the MySQL parser: Write, Delete and
unrecognized (snapshot) events always satisfy the invariant; an Update
event additionally needs a nonempty before_values dict whose keys all
appear among the after_values keys. -/
theorem mysql_invariant_main (et tn sn : String) (ts lp : Nat)
    (pks : Option (List String)) (rv rav rbv : Row)
    (hupd : str_has_sub et "Write" = false → str_has_sub et "Update" = true →
      rbv ≠ [] ∧ covers_keys rbv rav = true) :
    event_invariant (parse_binlog_event et tn sn ts lp pks rv rav rbv) = true := by
  by_cases hW : str_has_sub et "Write" = true
  · unfold parse_binlog_event
    rw [if_pos hW]
    simp only [event_invariant, Option.isNone_none, Bool.true_and,
      Option.getD_some]
    exact entries_sub_extract_row pks rv
  · by_cases hU : str_has_sub et "Update" = true
    · have hW' : str_has_sub et "Write" = false := by simpa using hW
      obtain ⟨hne, hcov⟩ := hupd hW' hU
      have hemp : rbv.isEmpty = false := by
        cases rbv with
        | nil => exact absurd rfl hne
        | cons a l => rfl
      have hif : (if rbv.isEmpty = true then rav else rbv) = rbv := by
        rw [hemp]; simp
      unfold parse_binlog_event
      rw [if_neg hW, if_pos hU, hif]
      simp only [event_invariant, Option.getD_some, Bool.and_eq_true]
      constructor
      · exact covers_keys_of_mem
          (fun kv hkv => ⟨kv, mem_of_mem_extract_row hkv, rfl⟩)
      · exact covers_keys_of_mem
          (fun kv hkv => key_mem_of_covers hcov (mem_of_mem_extract_row hkv))
    · by_cases hD : str_has_sub et "Delete" = true
      · unfold parse_binlog_event
        rw [if_neg hW, if_neg hU, if_pos hD]
        simp only [event_invariant, Option.isNone_none, Bool.true_and,
          Option.getD_some]
        refine entries_sub_of_mem (fun kv hkv => ?_)
        by_cases hemp : rv.isEmpty = true
        · rw [if_pos hemp] at hkv
          exact absurd (mem_of_mem_extract_row hkv) (List.not_mem_nil kv)
        · rw [if_neg hemp] at hkv
          exact mem_of_mem_extract_row hkv
      · unfold parse_binlog_event
        rw [if_neg hW, if_neg hU, if_neg hD]
        rfl

/- Claim C4. -/

/-- Malformed UPDATE payload for the C4 counterexample: the identity
dict carries the key id but the columns dict does not. -/
def c4_wal_bad : WalData :=
  { action := some "U", table := some "t", schema := none,
    columns := some [("name", Val.vstr "x")],
    identity := some [("id", Val.vint 1)] }

/-- C4 counterexample: _parse_wal_data performs no validation, so an
UPDATE payload whose identity keys are missing from the columns dict
yields a ChangeEvent whose after does not cover the primary key,
violating the claimed invariant. -/
theorem c4_counterexample :
    (parse_wal_data c4_wal_bad "0/1" 0).map event_invariant = some false := by
  decide

/-- C4 (amended): events emitted for INSERT and DELETE satisfy the
operation invariants unconditionally, for both connectors.  An UPDATE
event satisfies them provided the before image is usable as the primary
key source: for PostgreSQL, every identity key must appear among the
columns keys; for MySQL, before_values must be nonempty and each of its
keys must appear among the after_values keys.  Well-formed replication
payloads (full row images) satisfy these side conditions; malformed
ones can violate the invariant, as c4_counterexample shows. -/
theorem c4_theorem :
    (∀ (d : WalData) (lsn : String) (now : Nat), d.action ≠ some "U" →
      ((parse_wal_data d lsn now).map event_invariant).getD true = true)
    ∧ (∀ (d : WalData) (lsn : String) (now : Nat),
        covers_keys (d.identity.getD []) (d.columns.getD []) = true →
        ((parse_wal_data d lsn now).map event_invariant).getD true = true)
    ∧ (∀ (et tn sn : String) (ts lp : Nat) (pks : Option (List String))
        (rv rav rbv : Row), str_has_sub et "Update" = false →
        event_invariant (parse_binlog_event et tn sn ts lp pks rv rav rbv) = true)
    ∧ (∀ (et tn sn : String) (ts lp : Nat) (pks : Option (List String))
        (rv rav rbv : Row), rbv ≠ [] → covers_keys rbv rav = true →
        event_invariant (parse_binlog_event et tn sn ts lp pks rv rav rbv) = true) := by
  refine ⟨?_, ?_, ?_, ?_⟩
  · intro d lsn now hU
    exact pg_invariant_main d lsn now (fun h => absurd h hU)
  · intro d lsn now hcov
    exact pg_invariant_main d lsn now (fun _ => hcov)
  · intro et tn sn ts lp pks rv rav rbv hU
    exact mysql_invariant_main et tn sn ts lp pks rv rav rbv
      (fun _ h2 => absurd h2 (by rw [hU]; exact Bool.false_ne_true))
  · intro et tn sn ts lp pks rv rav rbv hne hcov
    exact mysql_invariant_main et tn sn ts lp pks rv rav rbv
      (fun _ _ => ⟨hne, hcov⟩)

/-- Well-formed INSERT payload for the C4 witness. -/
def c4_wal_ins : WalData :=
  { action := some "I", table := some "t", schema := none,
    columns := some [("id", Val.vint 1), ("name", Val.vstr "Ada")],
    identity := none }

/-- Well-formed UPDATE payload for the C4 witness: identity keys appear
among the columns keys. -/
def c4_wal_upd : WalData :=
  { action := some "U", table := some "t", schema := none,
    columns := some [("id", Val.vint 2), ("name", Val.vstr "Ada")],
    identity := some [("id", Val.vint 1)] }

/-- C4 witness: c4_theorem applied at concrete well-formed inputs for
all four conjuncts. -/
theorem c4_witness :
    ((parse_wal_data c4_wal_ins "0/1" 0).map event_invariant).getD true = true
    ∧ ((parse_wal_data c4_wal_upd "0/2" 0).map event_invariant).getD true = true
    ∧ event_invariant (parse_binlog_event "WriteRowsEvent" "t" "db" 0 5 none
        [("id", Val.vint 1)] [] []) = true
    ∧ event_invariant (parse_binlog_event "UpdateRowsEvent" "t" "db" 0 6 none
        [] [("id", Val.vint 1), ("name", Val.vstr "B")] [("id", Val.vint 1)]) = true :=
  ⟨c4_theorem.1 c4_wal_ins "0/1" 0 (by decide),
   c4_theorem.2.1 c4_wal_upd "0/2" 0 (by decide),
   c4_theorem.2.2.1 "WriteRowsEvent" "t" "db" 0 5 none _ _ _ (by decide),
   c4_theorem.2.2.2 "UpdateRowsEvent" "t" "db" 0 6 none _ _ _ (by decide) (by decide)⟩

/- The apply engine.  PostgreSQLConnector.apply_change (postgresql.py
lines 262-306) and MySQLConnector.apply_change (mysql.py lines 246-279)
build the same three statements (INSERT INTO, UPDATE SET WHERE,
DELETE FROM WHERE) modulo SQL dialect; both wrap execution in
try/except and return False on any database error.  The embedding makes
the target table state explicit and gives the statements their SQL
semantics. -/

/-- SQL equality used in WHERE clauses and unique-index comparison:
comparison with NULL is never true. -/
def sql_eq (a b : Val) : Bool :=
  match a, b with
  | Val.vnull, _ => false
  | _, Val.vnull => false
  | a, b => a == b

/-- A row satisfies the conjunctive WHERE clause col1 = v1 AND ... built
from the entries of pk. -/
def row_matches (r : Row) (pk : Row) : Bool :=
  pk.all (fun kv =>
    match r.lookup kv.1 with
    | some v => sql_eq v kv.2
    | none => false)

/-- An existing row r collides with newRow on the primary-key columns
(the unique-index comparison behind a duplicate-key violation). -/
def pk_conflict (pkCols : List String) (r newRow : Row) : Bool :=
  pkCols.all (fun c =>
    match r.lookup c, newRow.lookup c with
    | some a, some b => sql_eq a b
    | _, _ => false)

/-- One column of an UPDATE ... SET assignment: a column of the stored
row takes the assigned value when the SET list names it and is kept
otherwise. -/
def set_entry_val (a : Row) (kv : String × Val) : String × Val :=
  match a.lookup kv.1 with
  | some v => (kv.1, v)
  | none => kv

/-- SQL semantics of UPDATE ... SET a on a single stored row:
simultaneous assignment to the named columns. -/
def apply_set (r a : Row) : Row := r.map (set_entry_val a)

/-- The per-row effect of the UPDATE statement built by apply_change:
rows matching the WHERE clause on the primary key receive the SET
assignments, others are unchanged. -/
def update_row (pk a : Row) (r : Row) : Row :=
  if row_matches r pk then apply_set r a else r

/-- A target table: the primary-key column list of its PRIMARY KEY
constraint and the stored rows. -/
structure Table where
  pkCols : List String
  rows : List Row
deriving DecidableEq, Repr

/-- apply_change of both connectors.  The branches mirror the Python
if/elif chain on event.operation; every database-level error is caught
by the surrounding try/except and returned as False with the table
unchanged: a missing after dict (AttributeError on .keys()), an empty
column or WHERE list (the joined SQL is syntactically invalid), a NULL
or absent primary-key value on INSERT (NOT NULL violation of the PK
constraint), and a duplicate primary key on INSERT (unique violation).
The SNAPSHOT operation falls through all branches and returns True
without touching the table, exactly as the Python code does. -/
def apply_change (t : Table) (e : ChangeEvent) : Table × Bool :=
  match e.operation with
  | OperationType.insert =>
    match e.after with
    | none => (t, false)
    | some row =>
      if row.isEmpty then (t, false)
      else if t.pkCols.any (fun c => ((row.lookup c).getD Val.vnull) == Val.vnull) then
        (t, false)
      else if t.rows.any (fun r => pk_conflict t.pkCols r row) then (t, false)
      else ({ t with rows := t.rows ++ [row] }, true)
  | OperationType.update =>
    match e.after with
    | none => (t, false)
    | some a =>
      if a.isEmpty then (t, false)
      else if e.primary_key.isEmpty then (t, false)
      else ({ t with rows := t.rows.map (update_row e.primary_key a) }, true)
  | OperationType.delete =>
    if e.primary_key.isEmpty then (t, false)
    else ({ t with rows := t.rows.filter (fun r => !(row_matches r e.primary_key)) }, true)
  | OperationType.snapshot => (t, true)

/-- EventHandler statistics (event_handler.py lines 61-66). -/
structure Stats where
  processed : Nat
  errors : Nat
deriving DecidableEq, Repr

/-- EventHandler.process_event, event_handler.py lines 68-99: apply the
event to the target; on success increment processed_count, otherwise
increment error_count; return the success flag. -/
def process_event (s : Stats) (t : Table) (e : ChangeEvent) :
    Stats × Table × Bool :=
  let res := apply_change t e
  if res.2 then ({ s with processed := s.processed + 1 }, res.1, true)
  else ({ s with errors := s.errors + 1 }, res.1, false)

/- Idempotence lemmas for the apply engine. -/

theorem sql_eq_self {v : Val} (h : v ≠ Val.vnull) : sql_eq v v = true := by
  cases v with
  | vnull => exact absurd rfl h
  | vint n => simp [sql_eq]
  | vstr s => simp [sql_eq]
  | vbool b => simp [sql_eq]

theorem pk_conflict_self {pkCols : List String} {row : Row}
    (h : pkCols.any (fun c => ((row.lookup c).getD Val.vnull) == Val.vnull) = false) :
    pk_conflict pkCols row row = true := by
  rw [List.any_eq_false] at h
  simp only [pk_conflict, List.all_eq_true]
  intro c hc
  have hc' := h c hc
  cases hl : row.lookup c with
  | none =>
    rw [hl] at hc'
    simp at hc'
  | some v =>
    rw [hl] at hc'
    have hv : v ≠ Val.vnull := by simpa using hc'
    exact sql_eq_self hv

theorem set_entry_val_idem (a : Row) (kv : String × Val) :
    set_entry_val a (set_entry_val a kv) = set_entry_val a kv := by
  unfold set_entry_val
  cases hl : a.lookup kv.1 with
  | some v => simp [hl]
  | none => simp [hl]

theorem apply_set_idem (r a : Row) : apply_set (apply_set r a) a = apply_set r a := by
  induction r with
  | nil => rfl
  | cons kv r ih =>
    show set_entry_val a (set_entry_val a kv) :: apply_set (apply_set r a) a
      = set_entry_val a kv :: apply_set r a
    rw [set_entry_val_idem, ih]

theorem update_row_idem (pk a : Row) (r : Row) :
    update_row pk a (update_row pk a r) = update_row pk a r := by
  unfold update_row
  by_cases h : row_matches r pk = true
  · rw [if_pos h]
    by_cases h2 : row_matches (apply_set r a) pk = true
    · rw [if_pos h2, apply_set_idem]
    · rw [if_neg h2]
  · rw [if_neg h, if_neg h]

theorem map_idem_of_idem {α : Type} (f : α → α) (hf : ∀ x, f (f x) = f x)
    (l : List α) : (l.map f).map f = l.map f := by
  induction l with
  | nil => rfl
  | cons x l ih => simp only [List.map_cons]; rw [hf, ih]

theorem filter_idem {α : Type} (p : α → Bool) (l : List α) :
    (l.filter p).filter p = l.filter p := by
  induction l with
  | nil => rfl
  | cons x l ih =>
    by_cases h : p x = true
    · simp [List.filter_cons, h, ih]
    · simp [List.filter_cons, h, ih]

/- Claim C2. -/

/-- C2: apply_change is idempotent on the target row state: re-applying
the identical event to the state produced by a first application leaves
that state unchanged, for every operation.  A re-delivered INSERT is
rejected by the duplicate-key check (returning False) without changing
the rows; a re-delivered UPDATE re-assigns the same values; a
re-delivered DELETE matches nothing further. -/
theorem c2_theorem (t : Table) (e : ChangeEvent) :
    (apply_change (apply_change t e).1 e).1 = (apply_change t e).1 := by
  obtain ⟨pkCols, rows⟩ := t
  obtain ⟨op, tab, sch, ts, bef, aft, pk, lsn0, gtid0, sdb⟩ := e
  cases op with
  | snapshot => rfl
  | delete =>
    by_cases hpk : pk.isEmpty = true
    · simp [apply_change, hpk]
    · simp only [apply_change, if_neg hpk]
      simp [filter_idem]
  | update =>
    cases aft with
    | none => rfl
    | some a =>
      by_cases ha : a.isEmpty = true
      · simp [apply_change, ha]
      · by_cases hpk : pk.isEmpty = true
        · simp [apply_change, ha, hpk]
        · simp only [apply_change, if_neg ha, if_neg hpk]
          simp [map_idem_of_idem _ (update_row_idem pk a)]
  | insert =>
    cases aft with
    | none => rfl
    | some row =>
      by_cases hrow : row.isEmpty = true
      · simp [apply_change, hrow]
      · by_cases hnull :
          pkCols.any (fun c => ((row.lookup c).getD Val.vnull) == Val.vnull) = true
        · simp [apply_change, hrow, hnull]
        · by_cases hconf : rows.any (fun r => pk_conflict pkCols r row) = true
          · simp [apply_change, hrow, hnull, hconf]
          · have hnull' :
                pkCols.any (fun c => ((row.lookup c).getD Val.vnull) == Val.vnull) = false := by
              simpa using hnull
            simp [apply_change, hrow, hnull, hconf, pk_conflict_self hnull']

/- Claim C6. -/

/-- Target table for the C6 counterexample: id 1 already present. -/
def c6_table : Table :=
  { pkCols := ["id"], rows := [[("id", Val.vint 1), ("name", Val.vstr "Ada")]] }

/-- INSERT event re-delivering primary key 1 for the C6 counterexample. -/
def c6_event : ChangeEvent :=
  { operation := OperationType.insert, table := some "users", schema := none,
    timestamp := 0, before := none,
    after := some [("id", Val.vint 1), ("name", Val.vstr "Bob")],
    primary_key := [("id", Val.vint 1)], lsn := none, gtid := none,
    source_db := some "postgresql" }

/-- C6 counterexample: the claim says that on a primary-key unique
violation apply_change falls back to an UPDATE-by-PK upsert and reports
success.  On a table that already holds id 1, the INSERT is rejected,
apply_change returns False and leaves the row untouched: there is no
fallback and no success report. -/
theorem c6_counterexample : apply_change c6_table c6_event = (c6_table, false) := by
  decide

/-- C6 (amended): when an INSERT event collides with an existing row on
the primary-key columns, the unique violation is caught by the
try/except, apply_change returns False and the table is unchanged; no
upsert is attempted. -/
theorem c6_theorem (t : Table) (e : ChangeEvent) (row : Row)
    (hop : e.operation = OperationType.insert) (haf : e.after = some row)
    (hconf : t.rows.any (fun r => pk_conflict t.pkCols r row) = true) :
    apply_change t e = (t, false) := by
  simp only [apply_change, hop, haf]
  by_cases hrow : row.isEmpty = true
  · rw [if_pos hrow]
  · rw [if_neg hrow]
    by_cases hnull :
        t.pkCols.any (fun c => ((row.lookup c).getD Val.vnull) == Val.vnull) = true
    · rw [if_pos hnull]
    · rw [if_neg hnull, if_pos hconf]

/-- Target table for the C6 witness. -/
def c6_table_w : Table :=
  { pkCols := ["id"], rows := [[("id", Val.vint 2), ("name", Val.vstr "Eve")]] }

/-- Colliding INSERT event for the C6 witness. -/
def c6_event_w : ChangeEvent :=
  { operation := OperationType.insert, table := some "users", schema := none,
    timestamp := 7, before := none,
    after := some [("id", Val.vint 2), ("name", Val.vstr "Mallory")],
    primary_key := [("id", Val.vint 2)], lsn := none, gtid := none,
    source_db := some "mysql" }

/-- C6 witness: c6_theorem applied at a concrete colliding INSERT. -/
theorem c6_witness : apply_change c6_table_w c6_event_w = (c6_table_w, false) :=
  c6_theorem c6_table_w c6_event_w _ rfl rfl (by decide)

/- Claim C7. -/

/-- Empty target table for the C7 counterexample. -/
def c7_empty_table : Table := { pkCols := ["id"], rows := [] }

/-- DELETE event with an empty primary_key dict for the C7
counterexample (the PostgreSQL parser produces an empty primary_key for
rows with no id-like columns). -/
def c7_bad_event : ChangeEvent :=
  { operation := OperationType.delete, table := some "users", schema := none,
    timestamp := 0, before := some [], after := none,
    primary_key := [], lsn := none, gtid := none, source_db := some "postgresql" }

/-- C7 counterexample: the claim says a DELETE whose primary key matches
no row returns True, increments the processed counter and leaves the
error counter unchanged.  A DELETE event with an empty primary_key dict
matches no row (there are no rows at all), yet the joined WHERE clause
is empty, the statement is invalid SQL, apply_change returns False and
the handler increments the error counter instead. -/
theorem c7_counterexample :
    process_event { processed := 0, errors := 0 } c7_empty_table c7_bad_event
      = ({ processed := 0, errors := 1 }, c7_empty_table, false) := by decide

/-- C7 (amended): for a DELETE event with a nonempty primary_key dict
matching no row at the target, apply_change returns True with the table
unchanged, and process_event increments the processed counter and
leaves the error counter unchanged. -/
theorem c7_theorem (t : Table) (e : ChangeEvent) (s : Stats)
    (hop : e.operation = OperationType.delete)
    (hpk : e.primary_key ≠ [])
    (hmiss : ∀ r ∈ t.rows, row_matches r e.primary_key = false) :
    apply_change t e = (t, true)
    ∧ process_event s t e = ({ s with processed := s.processed + 1 }, t, true) := by
  have hpk' : e.primary_key.isEmpty = false := by
    cases h : e.primary_key with
    | nil => exact absurd h hpk
    | cons a l => rfl
  have hfil : t.rows.filter (fun r => !(row_matches r e.primary_key)) = t.rows :=
    List.filter_eq_self.mpr (fun r hr => by rw [hmiss r hr]; rfl)
  have happ : apply_change t e = (t, true) := by
    simp only [apply_change, hop]
    rw [if_neg (by rw [hpk']; exact Bool.false_ne_true), hfil]
  exact ⟨happ, by simp [process_event, happ]⟩

/-- Target table for the C7 witness: one row with id 1. -/
def c7_table : Table :=
  { pkCols := ["id"], rows := [[("id", Val.vint 1), ("name", Val.vstr "Ada")]] }

/-- DELETE event for absent id 7 for the C7 witness. -/
def c7_event : ChangeEvent :=
  { operation := OperationType.delete, table := some "users", schema := none,
    timestamp := 0, before := some [("id", Val.vint 7)], after := none,
    primary_key := [("id", Val.vint 7)], lsn := none, gtid := none,
    source_db := some "postgresql" }

/-- C7 witness: c7_theorem applied at the literal scenario of the spec:
deleting absent id 7 succeeds, the table is unchanged, processed goes
from 3 to 4 and errors stays 1. -/
theorem c7_witness :
    apply_change c7_table c7_event = (c7_table, true)
    ∧ process_event { processed := 3, errors := 1 } c7_table c7_event
      = ({ processed := 4, errors := 1 }, c7_table, true) :=
  c7_theorem c7_table c7_event { processed := 3, errors := 1 } rfl
    (by decide) (by decide)

/- Association-list update with Python dict semantics: replace the first
binding of the key in place, or append a new binding.  Used for the
offset dict (offsets[name] = {...}), the factory registry assignment
(cls._connectors[db_type.lower()] = connector_class) and the embedded
filesystem. -/

def set_key {α : Type} : List (String × α) → String → α → List (String × α)
  | [], k, v => [(k, v)]
  | kv :: rest, k, v =>
    if kv.1 = k then (k, v) :: rest else kv :: set_key rest k v

theorem lookup_set_key_self {α : Type} (m : List (String × α)) (k : String) (v : α) :
    (set_key m k v).lookup k = some v := by
  induction m with
  | nil => simp [set_key, List.lookup]
  | cons kv rest ih =>
    simp only [set_key]
    by_cases h : kv.1 = k
    · rw [if_pos h]
      simp [List.lookup]
    · rw [if_neg h]
      simp [List.lookup, beq_false_of_ne (Ne.symm h), ih]

theorem lookup_set_key_ne {α : Type} (m : List (String × α)) (k k' : String)
    (v : α) (h : k' ≠ k) : (set_key m k v).lookup k' = m.lookup k' := by
  induction m with
  | nil => simp [set_key, List.lookup, beq_false_of_ne h]
  | cons kv rest ih =>
    simp only [set_key]
    by_cases hk : kv.1 = k
    · rw [if_pos hk]
      have h2 : k' ≠ kv.1 := by rw [hk]; exact h
      simp [List.lookup, beq_false_of_ne h, beq_false_of_ne h2]
    · rw [if_neg hk]
      by_cases h2 : k' = kv.1
      · simp [List.lookup, h2]
      · simp [List.lookup, beq_false_of_ne h2, ih]

/- OffsetManager (event_handler.py lines 109-142).  The offset file is
embedded as its parsed JSON content: none when offsets.json does not
exist, some m when it holds the object m.  json.dump/json.load are
library functions assumed to round-trip. -/

/-- One value of the offsets dict: {"position": ..., "timestamp": ...}. -/
structure OffsetEntry where
  position : String
  timestamp : String
deriving DecidableEq, Repr

/-- The persisted offsets.json: absent, or a JSON object. -/
abbrev OffsetFile := Option (List (String × OffsetEntry))

/-- OffsetManager.load_offsets, event_handler.py lines 130-135: parse
the file when it exists, otherwise return the empty dict. -/
def load_offsets (file : OffsetFile) : List (String × OffsetEntry) :=
  file.getD []

/-- OffsetManager.save_offset, event_handler.py lines 119-128: load the
current dict, assign the entry for connector_name and write the dict
back.  datetime.now().isoformat() is passed in as wall_time. -/
def save_offset (file : OffsetFile) (connector_name position wall_time : String) :
    OffsetFile :=
  some (set_key (load_offsets file) connector_name
    { position := position, timestamp := wall_time })

/-- OffsetManager.get_offset, event_handler.py lines 137-142: the
position of the entry for connector_name, or None. -/
def get_offset (file : OffsetFile) (connector_name : String) : Option String :=
  ((load_offsets file).lookup connector_name).map OffsetEntry.position

/- Claim C9. -/

/-- C9: OffsetManager is a per-stream key-value store: after
save_offset(name, p), get_offset(name) returns p; get_offset of any
other name is unaffected by the save; and get_offset of a never-saved
name on an absent offset file returns None. -/
theorem c9_theorem (file : OffsetFile) (n n' p w : String) :
    get_offset (save_offset file n p w) n = some p
    ∧ (n' ≠ n → get_offset (save_offset file n p w) n' = get_offset file n')
    ∧ get_offset none n = none := by
  refine ⟨?_, ?_, rfl⟩
  · simp [get_offset, save_offset, load_offsets, lookup_set_key_self]
  · intro h
    simp only [get_offset, save_offset, load_offsets, Option.getD_some]
    rw [lookup_set_key_ne (file.getD []) n n'
      { position := p, timestamp := w } h]

/-- C9 witness: c9_theorem applied at a concrete offset file holding a
stream source_mysql, saving stream source_postgresql. -/
theorem c9_witness :
    get_offset (save_offset (some [("source_mysql", { position := "b1:200", timestamp := "t0" })])
      "source_postgresql" "0/9F" "t1") "source_postgresql" = some "0/9F"
    ∧ get_offset (save_offset (some [("source_mysql", { position := "b1:200", timestamp := "t0" })])
      "source_postgresql" "0/9F" "t1") "source_mysql"
      = get_offset (some [("source_mysql", { position := "b1:200", timestamp := "t0" })]) "source_mysql"
    ∧ get_offset none "source_postgresql" = none :=
  ⟨(c9_theorem (some [("source_mysql", { position := "b1:200", timestamp := "t0" })])
      "source_postgresql" "source_mysql" "0/9F" "t1").1,
   (c9_theorem (some [("source_mysql", { position := "b1:200", timestamp := "t0" })])
      "source_postgresql" "source_mysql" "0/9F" "t1").2.1 (by decide),
   (c9_theorem (some [("source_mysql", { position := "b1:200", timestamp := "t0" })])
      "source_postgresql" "source_mysql" "0/9F" "t1").2.2⟩

/- The filesystem trace of save_offset (claim C5).  The Python write is
`with open(self.offset_file, "w") as f: json.dump(offsets, f)`: opening
with mode "w" truncates the file in place, then the serialized dict is
written; there is no temporary file and no rename. -/

/-- A filesystem operation relevant to the offset store. -/
inductive FsOp where
  | openTrunc (path : String)
  | writeAll (path : String) (content : String)
  | renameFile (src dst : String)
deriving DecidableEq, Repr

/-- Effect of one operation on the filesystem (path to content map). -/
def fs_apply (fs : List (String × String)) (op : FsOp) : List (String × String) :=
  match op with
  | FsOp.openTrunc p => set_key fs p ""
  | FsOp.writeAll p c => set_key fs p (((fs.lookup p).getD "") ++ c)
  | FsOp.renameFile a b =>
    match fs.lookup a with
    | some c => set_key (fs.filter (fun kv => !(kv.1 == a))) b c
    | none => fs

/-- Replay a list of operations; every prefix is a possible crash
point. -/
def fs_replay (fs : List (String × String)) (ops : List FsOp) :
    List (String × String) :=
  ops.foldl fs_apply fs

/-- The filesystem operations performed by OffsetManager.save_offset
(event_handler.py lines 127-128): truncate offsets.json in place, then
write the new serialized record. -/
def save_offset_fs_ops (offset_file content : String) : List FsOp :=
  [FsOp.openTrunc offset_file, FsOp.writeAll offset_file content]

/-- Test for a rename operation. -/
def is_rename : FsOp → Bool
  | FsOp.renameFile _ _ => true
  | _ => false

/- Claim C5. -/

/-- C5 counterexample: the claim says the persisted offsets.json is at
every crash point either the complete previous record or the complete
new record.  After the first operation of save_offset (the truncating
open) the file content is empty, which is neither the previous record
OLD nor the new record NEW: a crash between truncation and write leaves
a torn record. -/
theorem c5_counterexample :
    (fs_replay [("offsets.json", "OLD")]
      ((save_offset_fs_ops "offsets.json" "NEW").take 1)).lookup "offsets.json"
      = some ""
    ∧ ("" : String) ≠ "OLD" ∧ ("" : String) ≠ "NEW" := by decide

/-- C5 (amended): save_offset writes offsets.json in place: its
operation trace contains no rename, truncation happens first (so the
intermediate crash state is the empty file, not the previous record),
and only after the full write does the file hold the new record. -/
theorem c5_theorem (file old new : String) :
    (save_offset_fs_ops file new).all (fun op => !(is_rename op)) = true
    ∧ fs_replay [(file, old)] ((save_offset_fs_ops file new).take 1) = [(file, "")]
    ∧ (fs_replay [(file, old)] (save_offset_fs_ops file new)).lookup file = some new := by
  refine ⟨rfl, ?_, ?_⟩
  · simp [fs_replay, fs_apply, save_offset_fs_ops, set_key]
  · simp [fs_replay, fs_apply, save_offset_fs_ops, set_key, List.lookup]

/- ConnectorFactory (base.py lines 202-251). -/

/-- A connector instance: the class that was instantiated and the config
passed to it (base.py line 241: connector_class(config)). -/
structure ConnInstance where
  cls : String
  config : Row
deriving DecidableEq, Repr

/-- The factory registry: db_type (lower-cased at registration) to
connector class. -/
abbrev Registry := List (String × String)

/-- ConnectorFactory.register, base.py lines 209-218:
cls._connectors[db_type.lower()] = connector_class. -/
def register (reg : Registry) (db_type connector_class : String) : Registry :=
  set_key reg (str_lower db_type) connector_class

/-- Whether an Except value is a success. -/
def except_is_ok {ε α : Type} : Except ε α → Bool
  | Except.ok _ => true
  | Except.error _ => false

/-- ConnectorFactory.create, base.py lines 220-241: look up
db_type.lower(); raise ValueError when absent, otherwise instantiate
the registered class.  The registry is returned unchanged (create never
assigns to cls._connectors). -/
def create (reg : Registry) (db_type : String) (config : Row) :
    Except String ConnInstance × Registry :=
  match reg.lookup (str_lower db_type) with
  | none => (Except.error ("Unsupported database type: " ++ db_type), reg)
  | some c => (Except.ok { cls := c, config := config }, reg)

/- Claim C10. -/

/-- C10: create raises ValueError exactly when no connector class is
registered under the lower-cased db_type; otherwise it returns an
instance of the registered class built from the given config; create
never modifies the registry; and a type registered under any
capitalization is found by create under any other capitalization with
the same lower-casing. -/
theorem c10_theorem (reg : Registry) (t : String) (cfg : Row) :
    (except_is_ok (create reg t cfg).1 = true ↔ (reg.lookup (str_lower t)).isSome = true)
    ∧ (∀ c, reg.lookup (str_lower t) = some c →
        (create reg t cfg).1 = Except.ok { cls := c, config := cfg })
    ∧ (create reg t cfg).2 = reg
    ∧ (∀ t' c, str_lower t' = str_lower t →
        (create (register reg t' c) t cfg).1 = Except.ok { cls := c, config := cfg }) := by
  refine ⟨?_, ?_, ?_, ?_⟩
  · cases h : reg.lookup (str_lower t) <;> simp [create, h, except_is_ok]
  · intro c h
    simp [create, h]
  · cases h : reg.lookup (str_lower t) <;> simp [create, h]
  · intro t' c h
    simp [create, register, h, lookup_set_key_self]

/-- C10 witness: c10_theorem applied concretely: a class registered as
PostgreSQL is found by create("postgresql"), and a registry entry mysql
is found by create("MySQL"). -/
theorem c10_witness :
    (create (register [] "PostgreSQL" "PostgreSQLConnector") "postgresql" []).1
      = Except.ok { cls := "PostgreSQLConnector", config := [] }
    ∧ (create [("mysql", "MySQLConnector")] "MySQL" []).1
      = Except.ok { cls := "MySQLConnector", config := [] } :=
  ⟨(c10_theorem [] "postgresql" []).2.2.2 "PostgreSQL" "PostgreSQLConnector" (by decide),
   (c10_theorem [("mysql", "MySQLConnector")] "MySQL" []).2.1 "MySQLConnector" (by decide)⟩

/- The sync loop of main() (main.py lines 109-131).  For each event the
handler processes it (updating processed_count / error_count), then if
handler.processed_count % 100 == 0 the loop reads
source.get_current_position() and saves it to the offset store.  The
embedding abstracts events to a type with an applyOk outcome
(target.apply_change) and a position; curPosAt i is the source's
current WAL position when queried after i events were consumed
(positions ordered as Nat, abstracting the LSN total order). -/

/-- State threaded through the sync loop: the handler counters and the
positions saved to the offset store, in order. -/
structure LoopState where
  processed : Nat
  errors : Nat
  saved : List Nat
deriving DecidableEq, Repr

/-- One run of the for-loop body of main() per event (main.py lines
118-128), with i the number of events consumed before this one. -/
def sync_loop {α : Type} (applyOk : α → Bool) (curPosAt : Nat → Nat) :
    List α → Nat → LoopState → LoopState
  | [], _, st => st
  | e :: rest, i, st =>
    let st1 := if applyOk e then { st with processed := st.processed + 1 }
      else { st with errors := st.errors + 1 }
    let st2 := if st1.processed % 100 == 0 then
        { st1 with saved := st1.saved ++ [curPosAt (i + 1)] }
      else st1
    sync_loop applyOk curPosAt rest (i + 1) st2

/-- The sync loop started on a fresh handler (counters 0, nothing
saved). -/
def sync_run {α : Type} (applyOk : α → Bool) (curPosAt : Nat → Nat)
    (events : List α) : LoopState :=
  sync_loop applyOk curPosAt events 0 { processed := 0, errors := 0, saved := [] }

/-- Claim C1 as stated: every position saved to the offset store covers
only ok-applied events; posOf e is the event's log position. -/
def c1_claim_holds {α : Type} (applyOk : α → Bool) (posOf : α → Nat)
    (curPosAt : Nat → Nat) (events : List α) : Prop :=
  ∀ p ∈ (sync_run applyOk curPosAt events).saved,
    ∀ e ∈ events, posOf e ≤ p → applyOk e = true

/- Claim C1. -/

/-- C1 counterexample: one event at position 5 whose apply fails, with
the source's current WAL position at 10.  The handler leaves
processed_count at 0, 0 % 100 == 0 holds, so the loop saves the
source's current position 10 to the offset store even though the event
at position 5 ≤ 10 was never applied: the persisted position covers a
failed event. -/
theorem c1_counterexample :
    ¬ c1_claim_holds (fun (_ : Nat) => false) (fun e => e) (fun _ => 10) [5] := by
  unfold c1_claim_holds
  decide

/-- C1 (amended): the loop checkpoints source.get_current_position()
whenever processed_count % 100 == 0 after handling an event, including
when processed_count is still 0 because the event failed; the saved
value is the source's current position, not the position of the last
applied event, so it can cover pending or failed events.  Concretely:
after a single failed event the loop has applied nothing, counts one
error, and has already saved the source's current position. -/
theorem c1_theorem {α : Type} (e : α) (applyOk : α → Bool)
    (curPosAt : Nat → Nat) (h : applyOk e = false) :
    sync_run applyOk curPosAt [e]
      = { processed := 0, errors := 1, saved := [curPosAt 1] } := by
  simp [sync_run, sync_loop, h]

/-- C1 witness: c1_theorem applied at the concrete failing event of the
counterexample. -/
theorem c1_witness :
    sync_run (fun (_ : Nat) => false) (fun _ => 10) [5]
      = { processed := 0, errors := 1, saved := [10] } :=
  c1_theorem 5 (fun _ => false) (fun _ => 10) rfl
